import Mathlib

/-!
Verification of `handlers/paniccheck.go` (gorouter)

The file embeds `panicCheck.ServeHTTP` and its collaborators and proves the
properties of its recovery logic.

Go constructs are embedded as follows.

* A Go function with effects is a function `World → World × Result α`
  (type `Go α`): it returns normally, panics with a value, or ends the process.
* `defer func() { if rec := recover(); ... }()` is `withDefer`: the deferred
  function runs on every path out of the body and receives what `recover()`
  returns there.
* Values that can be given to `panic` are of type `Value`; pointers are
  addresses into `World.heap`, so that `==` on two error pointers is identity
  of the object and not equality of the message.
* Everything the handler does to the outside (calls on a response sink, log
  records, assignments to `r.Close`) is appended to `World.events` in program
  order.
* A call of the method `Error()` of an error returns a text or panics
  (`Value.callError`); `zap.Error(err)` makes that call when it is evaluated.
-/

namespace handlers

/-! ## Go values -/

/-- Dynamic values of type `interface{}`, as far as a handler can panic with
them: the nil interface, a pointer to an `errors.errorString` (what
`errors.New` and `fmt.Errorf` without `%w` return), a pointer to a
`fmt.wrapError` (what `fmt.Errorf` with `%w` returns), a `string`, an `int`,
a value of any other dynamic type `typ`, given by what the handler can
observe of it: whether the type has an `Error() string` method, and its text
(what `Error()` returns, or what `%v` renders when it is no error), and an
error of a type `typ` whose `Error()` method panics with the value `pv` (a
nil pointer of a type whose method reads its receiver is the usual case).
The derived equality is Go's `==` on interface values: same dynamic type and
same pointer (or same string, same integer). -/
inductive Value where
  | nil
  | errorString (addr : Nat)
  | wrapError (addr : Nat)
  | string (s : String)
  | int (n : Int)
  | other (typ : String) (isError : Bool) (text : String)
  | panickingError (typ : String) (pv : Value)
  deriving DecidableEq, Repr

/-- Objects of the heap that error pointers point to. -/
inductive Obj where
  | errorString (s : String)
  | wrapError (msg : String) (err : Value)
  deriving DecidableEq, Repr

/-- The sentinel `http.ErrAbortHandler`, the package variable of `net/http`
initialised with `errors.New("net/http: abort Handler")`. It is the first
error object of the program: address 0. -/
def http.ErrAbortHandler : Value := Value.errorString 0

/-- The constant `http.StatusInternalServerError`. -/
def http.StatusInternalServerError : Nat := 500

/-- The type assertion `rec.(error)` succeeds: the dynamic type has an
`Error() string` method. -/
def Value.implementsError : Value → Bool
  | .errorString _ => true
  | .wrapError _ => true
  | .other _ isError _ => isError
  | .panickingError _ _ => true
  | _ => false

/-- The value a call of the method `Error()` panics with, when it panics. -/
def Value.ErrorPanic : Value → Option Value
  | .panickingError _ pv => some pv
  | _ => none

/-- The text the method `Error()` of an error value returns when it returns,
read from the heap. A pointer to no object of its type (not produced by any
allocation below) gives ""; so does, for totality, a value whose `Error()`
panics: a call never gets that text, see `Value.callError`. -/
def Value.Error (heap : List Obj) : Value → String
  | .errorString a =>
    match heap[a]? with
    | some (.errorString s) => s
    | _ => ""
  | .wrapError a =>
    match heap[a]? with
    | some (.wrapError msg _) => msg
    | _ => ""
  | .other _ _ text => text
  | _ => ""

/-- The rendering of a value by the verb `%v` of package `fmt`. The handler
formats only values that are no errors (line 39); on an error `fmt` prints
the text of `Error()`. -/
def fmt.Sprintv (heap : List Obj) : Value → String
  | .nil => "<nil>"
  | .string s => s
  | .int n => toString n
  | .other _ _ text => text
  | v => v.Error heap

/-- The conversion `[]byte(s)`. -/
def bytes (s : String) : List UInt8 := s.toUTF8.data.toList

/-! ## Requests, response sinks, log records -/

/-- The fields of `http.Request` that the handler reads or writes. -/
structure Request where
  Host : String
  Close : Bool
  deriving DecidableEq, Repr

/-- A call received by an `http.ResponseWriter`; for `Write`, together with
the error it returned (`none` for a nil error). -/
inductive RWCall where
  | WriteHeader (statusCode : Nat)
  | Write (b : List UInt8) (err : Option Value)
  deriving DecidableEq, Repr

/-- Fields of a log record, as built by package `zap`: `zap.String`,
`zap.Error`, `zap.Stack` and `zap.Nest`. -/
inductive ZapField where
  | string (key : String) (val : String)
  | error (err : Value)
  | stack (trace : String)
  | nest (key : String) (fields : List ZapField)
  deriving Repr

/-- Severities of the two logger methods the handler uses. -/
inductive Level where
  | ErrorLevel
  | FatalLevel
  deriving DecidableEq, Repr

/-- One log record. -/
structure Entry where
  level : Level
  msg : String
  fields : List ZapField
  deriving Repr

/-- Modelled from the spec: the package `common/health` is not part of the
sources. The health signal is a shared cell holding a status. `Healthy` is the
value the tests set and expect; the other two stand for the statuses that are
not healthy. -/
inductive Status where
  | Initializing
  | Healthy
  | Degraded
  deriving DecidableEq, Repr

/-- An observable action, in program order: a call on a response sink, a log
record, an assignment to the field `Close` of a request. `sink` and `r` are
the identities of the sink and of the request. -/
inductive Event where
  | rw (sink : Nat) (call : RWCall)
  | log (e : Entry)
  | setClose (r : Nat) (b : Bool)
  deriving Repr

/-- The state of the program around one invocation of the handler. -/
structure World where
  /-- error objects, by address -/
  heap : List Obj
  /-- the `http.Request` behind each request pointer -/
  requests : Nat → Request
  /-- the `health.Health` behind each health pointer -/
  health : Nat → Status
  /-- behaviour of the response sinks: the error `Write` returns on the sink,
  given the calls the sink received before and the bytes -/
  writeErr : Nat → List RWCall → List UInt8 → Option Value
  /-- the text a capture of the stack would give (`zap.Stack()`) -/
  stack : String
  /-- all observable actions so far, oldest first -/
  events : List Event

/-- The calls that sink `rw` has received, oldest first. -/
def World.calls (w : World) (rw : Nat) : List RWCall :=
  w.events.filterMap fun e =>
    match e with
    | .rw i c => if i = rw then some c else none
    | _ => none

/-- The log records emitted, oldest first. -/
def World.log (w : World) : List Entry :=
  w.events.filterMap fun e =>
    match e with
    | .log en => some en
    | _ => none

/-! ## Effects -/

/-- How a Go function ends: normal return, a panic carrying a value, or the
end of the process (`os.Exit`). -/
inductive Result (α : Type) where
  | ok (a : α)
  | panic (v : Value)
  | exit

/-- A Go function with effects. -/
def Go (α : Type) : Type := World → World × Result α

/-- Normal return of a value. -/
def Go.pure {α : Type} (a : α) : Go α := fun w => (w, .ok a)

/-- Sequencing: a panic or an exit of the first part skips the second. -/
def Go.bind {α β : Type} (m : Go α) (f : α → Go β) : Go β := fun w =>
  match m w with
  | (w1, .ok a) => f a w1
  | (w1, .panic v) => (w1, .panic v)
  | (w1, .exit) => (w1, .exit)

instance : Monad Go where
  pure := Go.pure
  bind := Go.bind

/-- The builtin `panic(v)`. -/
def gopanic {α : Type} (v : Value) : Go α := fun w => (w, .panic v)

/-- What `recover()` returns in a deferred function, by the way the body
ended. At the language level of this repository (its tests still use
`io/ioutil`) `panic(nil)` is recovered as nil, like no panic at all. -/
def gorecover : Result Unit → Value
  | .panic v => v
  | _ => Value.nil

/-- The statement `defer func() { rec := recover(); deferred(rec) }()`
followed by `body`. The deferred function runs when the body returns or
panics (not when the process ends); it calls `recover()` first, which stops
the panic, so the whole function ends the way the deferred function ends. -/
def withDefer (body : Go Unit) (deferred : Value → Go Unit) : Go Unit := fun w =>
  match body w with
  | (w1, .exit) => (w1, .exit)
  | (w1, res) => deferred (gorecover res) w1

/-- The function `errors.New`: a new object, a pointer to it. -/
def errors.New (s : String) : Go Value := fun w =>
  ({ w with heap := w.heap ++ [Obj.errorString s] }, .ok (Value.errorString w.heap.length))

/-- The call `fmt.Errorf("%v", a)`: without `%w` it is `errors.New` of the
formatted text. -/
def fmt.Errorf_v (a : Value) : Go Value := fun w =>
  errors.New (fmt.Sprintv w.heap a) w

/-- Reading `r.Host`. -/
def Request.getHost (r : Nat) : Go String := fun w => (w, .ok (w.requests r).Host)

/-- The assignment `r.Close = b`. -/
def Request.setClose (r : Nat) (b : Bool) : Go Unit := fun w =>
  ({ w with
      requests := fun i => if i = r then { w.requests i with Close := b } else w.requests i,
      events := w.events ++ [Event.setClose r b] }, .ok ())

/-- The call `rw.WriteHeader(statusCode)`. -/
def ResponseWriter.WriteHeader (rw : Nat) (statusCode : Nat) : Go Unit := fun w =>
  ({ w with events := w.events ++ [Event.rw rw (RWCall.WriteHeader statusCode)] }, .ok ())

/-- The call `rw.Write(b)`, returning the error of the sink. -/
def ResponseWriter.Write (rw : Nat) (b : List UInt8) : Go (Option Value) := fun w =>
  let err := w.writeErr rw (w.calls rw) b
  ({ w with events := w.events ++ [Event.rw rw (RWCall.Write b err)] }, .ok err)

/-- A call `err.Error()`: it returns the text, or panics. -/
def Value.callError (err : Value) : Go String := fun w =>
  match err.ErrorPanic with
  | some pv => (w, .panic pv)
  | none => (w, .ok (err.Error w.heap))

/-- The call `zap.Error(err)`: at the version of `zap` this package imports
(the one that has `zap.Nest`) it calls `err.Error()` at once and stores the
text under the key "error"; the field keeps the error the text came from. -/
def zap.Error (err : Value) : Go ZapField := do
  let _ ← err.callError
  pure (ZapField.error err)

/-- The call `zap.Stack()`. -/
def zap.Stack : Go ZapField := fun w => (w, .ok (ZapField.stack w.stack))

/-- Modelled from the spec: the package `logger` is not part of the sources.
A logger emits structured records; the record of `Fatal` is expected to halt
the process, and whether it does is a property of the logger (a test double
returns). -/
structure Logger where
  exitOnFatal : Bool
  deriving DecidableEq, Repr

/-- Modelled from the spec: `Logger.Error` emits one record at error
severity. -/
def Logger.Error (_l : Logger) (msg : String) (fields : List ZapField) : Go Unit := fun w =>
  ({ w with events := w.events ++ [Event.log ⟨Level.ErrorLevel, msg, fields⟩] }, .ok ())

/-- Modelled from the spec: `Logger.Fatal` emits one record at fatal severity
and then halts the process when the logger is one that does. -/
def Logger.Fatal (l : Logger) (msg : String) (fields : List ZapField) : Go Unit := fun w =>
  ({ w with events := w.events ++ [Event.log ⟨Level.FatalLevel, msg, fields⟩] },
    if l.exitOnFatal then .exit else .ok ())

/-! ## The handler -/

/-- The type `http.HandlerFunc`: called with a response sink and a request. -/
abbrev HandlerFunc : Type := Nat → Nat → Go Unit

/-- The struct `panicCheck`: a pointer to the shared health status and a
logger. -/
structure panicCheck where
  health : Nat
  logger : Logger
  deriving DecidableEq, Repr

/-- The constructor `NewPanicCheck`. -/
def NewPanicCheck (health : Nat) (logger : Logger) : panicCheck :=
  { health := health, logger := logger }

/-- The body of the 500 response. -/
def panicBody : String := "500 Internal Server Error: An unknown error caused a panic.\n"

/-- The deferred function of `ServeHTTP` (lines 28-51), applied to what
`recover()` returned. The arguments of the two logger calls are evaluated
before the call, in order: a panic of `zap.Error` leaves the deferred function
with the record not emitted, and nothing recovers it. -/
def panicCheck.ServeHTTP.func1 (p : panicCheck) (rw : Nat) (r : Nat) (rec : Value) : Go Unit :=
  if rec ≠ Value.nil then
    if rec = http.ErrAbortHandler then
      gopanic http.ErrAbortHandler
    else do
      let err ← if rec.implementsError then pure rec else fmt.Errorf_v rec
      let host ← Request.getHost r
      let errField ← zap.Error err
      let stack ← zap.Stack
      p.logger.Error "panic-check"
        [ZapField.string "host" host, ZapField.nest "error" [errField, stack]]
      ResponseWriter.WriteHeader rw http.StatusInternalServerError
      let writeErr ← ResponseWriter.Write rw (bytes panicBody)
      match writeErr with
      | some e =>
        let writeErrField ← zap.Error e
        p.logger.Fatal "failed-response-in-panic-check"
          [ZapField.nest "error" [writeErrField]]
      | none => pure ()
      Request.setClose r true
  else
    pure ()

/-- The method `panicCheck.ServeHTTP`: the deferred recovery, then
`next(rw, r)`. -/
def panicCheck.ServeHTTP (p : panicCheck) (rw : Nat) (r : Nat) (next : HandlerFunc) : Go Unit :=
  withDefer (next rw r) (panicCheck.ServeHTTP.func1 p rw r)

/-! ## The recorder and the continuations of the test suite -/

/-- The sink of the tests, `httptest.ResponseRecorder` of the Go standard
library: the first `WriteHeader` fixes the status, a `Write` before any
`WriteHeader` fixes it to 200, every `Write` appends to the body. -/
structure ResponseRecorder where
  Code : Nat
  wroteHeader : Bool
  Body : List UInt8
  deriving DecidableEq, Repr

/-- The function `httptest.NewRecorder`. -/
def NewRecorder : ResponseRecorder := { Code := 200, wroteHeader := false, Body := [] }

/-- The method `ResponseRecorder.WriteHeader`. -/
def ResponseRecorder.WriteHeader (rec : ResponseRecorder) (code : Nat) : ResponseRecorder :=
  if rec.wroteHeader then rec else { rec with Code := code, wroteHeader := true }

/-- The method `ResponseRecorder.Write`. -/
def ResponseRecorder.Write (rec : ResponseRecorder) (buf : List UInt8) : ResponseRecorder :=
  let rec1 := rec.WriteHeader 200
  { rec1 with Body := rec1.Body ++ buf }

/-- The state of a fresh recorder after the given calls. -/
def ResponseRecorder.after (calls : List RWCall) : ResponseRecorder :=
  calls.foldl
    (fun rec c =>
      match c with
      | .WriteHeader code => rec.WriteHeader code
      | .Write b _ => rec.Write b)
    NewRecorder

/-- The world of the test suite before each test: the sentinel is the only
error object, every request has host "somehost.com", the health status is
`Healthy`, the sinks are recorders (their `Write` never fails), nothing has
happened yet. -/
def testWorld : World :=
  { heap := [Obj.errorString "net/http: abort Handler"],
    requests := fun _ => { Host := "somehost.com", Close := false },
    health := fun _ => Status.Healthy,
    writeErr := fun _ _ _ => none,
    stack := "goroutine 1 [running]:",
    events := [] }

/-- The same world with sinks whose `Write` fails with the error object at
address 1 ("write: broken pipe"). -/
def brokenWorld : World :=
  { testWorld with
    heap := [Obj.errorString "net/http: abort Handler", Obj.errorString "write: broken pipe"],
    writeErr := fun _ _ _ => some (Value.errorString 1) }

/-- The continuation `expectedPanic` of the tests:
`panic(errors.New("we expect this panic"))`. -/
def expectedPanic : HandlerFunc := fun _ _ => do
  let e ← errors.New "we expect this panic"
  gopanic e

/-- The continuation `noop` of the tests. -/
def noop : HandlerFunc := fun _ _ => pure ()

/-- The continuation `errAbort` of the tests: `panic(http.ErrAbortHandler)`. -/
def errAbort : HandlerFunc := fun _ _ => gopanic http.ErrAbortHandler

/-- A continuation that runs `panic(nil)`. -/
def panicNil : HandlerFunc := fun _ _ => gopanic Value.nil

/-- The panic of the runtime on a read through a nil pointer, a
`runtime.Error`. -/
def nilDereference : Value :=
  Value.other "runtime.errorString" true
    "runtime error: invalid memory address or nil pointer dereference"

/-- A nil pointer of a type `*ptrErr` whose `Error()` method reads a field of
its receiver: as an `error` or `interface{}` value it is not nil, and a call
of `Error()` on it panics. -/
def ptrErr : Value := Value.panickingError "*main.ptrErr" nilDereference

/-- The test world with sinks whose `Write` fails with the error `ptrErr`. -/
def ptrErrSinkWorld : World :=
  { testWorld with writeErr := fun _ _ _ => some ptrErr }

/-- A continuation that panics with a given value. -/
def panicWith (v : Value) : HandlerFunc := fun _ _ => gopanic v

/-- A continuation that answers by itself: `rw.WriteHeader(204)`. -/
def noContent : HandlerFunc := fun rw _ => ResponseWriter.WriteHeader rw 204

/-- The test world with a second error object that carries the text of the
sentinel: what `errors.New("net/http: abort Handler")` gives when called
again. -/
def lookalikeWorld : World :=
  { testWorld with
    heap := [Obj.errorString "net/http: abort Handler",
      Obj.errorString "net/http: abort Handler"] }

/-! ## Names for the values the deferred function computes -/

/-- The value of the variable `err` after lines 37-40: the recovered value
itself when it is an error, otherwise the pointer to the error object that
`fmt.Errorf` allocates next. -/
def coercedError (heap : List Obj) (rec : Value) : Value :=
  if rec.implementsError then rec else Value.errorString heap.length

/-- The heap after lines 37-40. -/
def coercedHeap (heap : List Obj) (rec : Value) : List Obj :=
  if rec.implementsError then heap else heap ++ [Obj.errorString (fmt.Sprintv heap rec)]

/-- The record of line 41 for a recovered value, in the world the
continuation left. -/
def panicCheckEntry (w : World) (r : Nat) (rec : Value) : Entry :=
  { level := Level.ErrorLevel,
    msg := "panic-check",
    fields := [ZapField.string "host" (w.requests r).Host,
      ZapField.nest "error" [ZapField.error (coercedError w.heap rec), ZapField.stack w.stack]] }

/-- The record of line 46 for a write error. -/
def failedResponseEntry (writeErr : Value) : Entry :=
  { level := Level.FatalLevel,
    msg := "failed-response-in-panic-check",
    fields := [ZapField.nest "error" [ZapField.error writeErr]] }

/-- The error that the `Write` of line 44 gets from sink `rw`, in the world
the continuation left: the sink has by then also received the `WriteHeader`
of line 43. -/
def writeResult (w : World) (rw : Nat) : Option Value :=
  w.writeErr rw (w.calls rw ++ [RWCall.WriteHeader 500]) (bytes panicBody)

/-- The actions after the first `n`: with `n` the number of actions when the
continuation ended, the actions of the handler itself. -/
def World.eventsSince (w : World) (n : Nat) : List Event := w.events.drop n

/-- The actions of the default case, for a recovered value whose `Error()`
returns: the record, the two calls on the sink, and then, by what the `Write`
returned, the assignment to `Close`, or nothing (the `Error()` of the write
error panics), or the fatal record and, when the logger returns, the
assignment. -/
def ownEvents (p : panicCheck) (rw r : Nat) (w : World) (v : Value) : List Event :=
  [Event.log (panicCheckEntry w r v),
    Event.rw rw (RWCall.WriteHeader 500),
    Event.rw rw (RWCall.Write (bytes panicBody) (writeResult w rw))] ++
    match writeResult w rw with
    | none => [Event.setClose r true]
    | some e =>
      match e.ErrorPanic with
      | some _ => []
      | none => Event.log (failedResponseEntry e) ::
          (if p.logger.exitOnFatal then [] else [Event.setClose r true])

/-! ## The deferred function, case by case -/

/-- A nil result of `recover()` fails the guard of line 29: nothing is done. -/
theorem func1_nil (p : panicCheck) (rw r : Nat) (w : World) :
    panicCheck.ServeHTTP.func1 p rw r Value.nil w = (w, Result.ok ()) := by
  simp [panicCheck.ServeHTTP.func1, pure, Go.pure]

/-- The sentinel takes the first case of the switch: it is raised again. -/
theorem func1_abort (p : panicCheck) (rw r : Nat) (w : World) :
    panicCheck.ServeHTTP.func1 p rw r http.ErrAbortHandler w
      = (w, Result.panic http.ErrAbortHandler) := by
  simp [panicCheck.ServeHTTP.func1, gopanic, http.ErrAbortHandler]

/-- A value whose `Error()` panics is an error, is not nil and is not the
sentinel. -/
theorem of_ErrorPanic (v pv : Value) (hP : v.ErrorPanic = some pv) :
    v.implementsError = true ∧ v ≠ Value.nil ∧ v ≠ http.ErrAbortHandler := by
  cases v <;> simp [Value.ErrorPanic, Value.implementsError, http.ErrAbortHandler] at hP ⊢

/-- The `Error()` of an `errors.errorString` returns. -/
theorem errorString_ErrorPanic (a : Nat) : (Value.errorString a).ErrorPanic = none := rfl

/-- The error of lines 37-40 has an `Error()` that returns when that of the
recovered value does. -/
theorem coercedError_ErrorPanic (heap : List Obj) (v : Value) (hE : v.ErrorPanic = none) :
    (coercedError heap v).ErrorPanic = none := by
  unfold coercedError
  split
  · exact hE
  · rfl

/-- The default case when `Error()` of the recovered value panics: the panic
leaves the deferred function at line 41, before any action. -/
theorem func1_error_panics (p : panicCheck) (rw r : Nat) (w : World) (v pv : Value)
    (hP : v.ErrorPanic = some pv) :
    panicCheck.ServeHTTP.func1 p rw r v w = (w, Result.panic pv) := by
  obtain ⟨he, hnil, hs⟩ := of_ErrorPanic v pv hP
  simp [panicCheck.ServeHTTP.func1, hnil, hs, he, hP, bind, Go.bind, pure, Go.pure,
    Request.getHost, zap.Error, Value.callError]

/-- The default case when the sink accepts the body. -/
theorem func1_unexpected_ok (p : panicCheck) (rw r : Nat) (w : World) (v : Value)
    (hnil : v ≠ Value.nil) (hs : v ≠ http.ErrAbortHandler) (hE : v.ErrorPanic = none)
    (hw : writeResult w rw = none) :
    panicCheck.ServeHTTP.func1 p rw r v w =
      ({ w with
          heap := coercedHeap w.heap v,
          requests := fun i => if i = r then { w.requests i with Close := true } else w.requests i,
          events := w.events ++ [Event.log (panicCheckEntry w r v),
            Event.rw rw (RWCall.WriteHeader 500),
            Event.rw rw (RWCall.Write (bytes panicBody) none),
            Event.setClose r true] }, Result.ok ()) := by
  simp only [writeResult, World.calls] at hw
  by_cases he : v.implementsError = true <;>
    simp [panicCheck.ServeHTTP.func1, hnil, hs, he, hE, bind, Go.bind, pure, Go.pure,
      Request.getHost, zap.Stack, zap.Error, Value.callError, errorString_ErrorPanic,
      Logger.Error, ResponseWriter.WriteHeader,
      ResponseWriter.Write, Request.setClose, http.StatusInternalServerError,
      coercedHeap, coercedError, panicCheckEntry, World.calls, List.filterMap_append, hw,
      fmt.Errorf_v, errors.New]

/-- The default case when the sink refuses the body with an error `e` whose
`Error()` panics: the panic leaves the deferred function at line 46, with no
fatal record and `Close` not set. -/
theorem func1_unexpected_write_error_panics (p : panicCheck) (rw r : Nat) (w : World)
    (v e pv : Value)
    (hnil : v ≠ Value.nil) (hs : v ≠ http.ErrAbortHandler) (hE : v.ErrorPanic = none)
    (hw : writeResult w rw = some e) (hP : e.ErrorPanic = some pv) :
    panicCheck.ServeHTTP.func1 p rw r v w =
      ({ w with
          heap := coercedHeap w.heap v,
          events := w.events ++ [Event.log (panicCheckEntry w r v),
            Event.rw rw (RWCall.WriteHeader 500),
            Event.rw rw (RWCall.Write (bytes panicBody) (some e))] }, Result.panic pv) := by
  simp only [writeResult, World.calls] at hw
  by_cases he : v.implementsError = true <;>
    simp [panicCheck.ServeHTTP.func1, hnil, hs, he, hE, hP, bind, Go.bind, pure, Go.pure,
      Request.getHost, zap.Stack, zap.Error, Value.callError, errorString_ErrorPanic,
      Logger.Error, ResponseWriter.WriteHeader,
      ResponseWriter.Write, http.StatusInternalServerError,
      coercedHeap, coercedError, panicCheckEntry, World.calls, List.filterMap_append, hw,
      fmt.Errorf_v, errors.New]

/-- The default case when the sink refuses the body with an error `e` whose
`Error()` returns. -/
theorem func1_unexpected_fatal (p : panicCheck) (rw r : Nat) (w : World) (v e : Value)
    (hnil : v ≠ Value.nil) (hs : v ≠ http.ErrAbortHandler) (hE : v.ErrorPanic = none)
    (hw : writeResult w rw = some e) (hP : e.ErrorPanic = none) :
    panicCheck.ServeHTTP.func1 p rw r v w =
      if p.logger.exitOnFatal then
        ({ w with
            heap := coercedHeap w.heap v,
            events := w.events ++ [Event.log (panicCheckEntry w r v),
              Event.rw rw (RWCall.WriteHeader 500),
              Event.rw rw (RWCall.Write (bytes panicBody) (some e)),
              Event.log (failedResponseEntry e)] }, Result.exit)
      else
        ({ w with
            heap := coercedHeap w.heap v,
            requests := fun i => if i = r then { w.requests i with Close := true } else w.requests i,
            events := w.events ++ [Event.log (panicCheckEntry w r v),
              Event.rw rw (RWCall.WriteHeader 500),
              Event.rw rw (RWCall.Write (bytes panicBody) (some e)),
              Event.log (failedResponseEntry e),
              Event.setClose r true] }, Result.ok ()) := by
  simp only [writeResult, World.calls] at hw
  by_cases he : v.implementsError = true <;> by_cases hx : p.logger.exitOnFatal = true <;>
    simp [panicCheck.ServeHTTP.func1, hnil, hs, he, hx, hE, hP, bind, Go.bind, pure, Go.pure,
      Request.getHost, zap.Stack, zap.Error, Value.callError, errorString_ErrorPanic,
      Logger.Error, Logger.Fatal, ResponseWriter.WriteHeader,
      ResponseWriter.Write, Request.setClose, http.StatusInternalServerError,
      coercedHeap, coercedError, panicCheckEntry, failedResponseEntry, World.calls,
      List.filterMap_append, hw, fmt.Errorf_v, errors.New]

/-- Everything the default case does, for a recovered value whose `Error()`
returns: the actions, the heap, the fields the handler leaves alone, and
the three ways it can end. -/
theorem func1_unexpected (p : panicCheck) (rw r : Nat) (w : World) (v : Value)
    (hnil : v ≠ Value.nil) (hs : v ≠ http.ErrAbortHandler) (hE : v.ErrorPanic = none) :
    (panicCheck.ServeHTTP.func1 p rw r v w).1.events = w.events ++ ownEvents p rw r w v
      ∧ (panicCheck.ServeHTTP.func1 p rw r v w).1.heap = coercedHeap w.heap v
      ∧ ((panicCheck.ServeHTTP.func1 p rw r v w).1.requests r).Host = (w.requests r).Host
      ∧ (((panicCheck.ServeHTTP.func1 p rw r v w).2 = Result.ok ()
            ∧ ((panicCheck.ServeHTTP.func1 p rw r v w).1.requests r).Close = true
            ∧ (∀ e, writeResult w rw = some e →
                e.ErrorPanic = none ∧ p.logger.exitOnFatal = false))
          ∨ ((panicCheck.ServeHTTP.func1 p rw r v w).2 = Result.exit
            ∧ (panicCheck.ServeHTTP.func1 p rw r v w).1.requests = w.requests
            ∧ ∃ e, writeResult w rw = some e ∧ e.ErrorPanic = none
                ∧ p.logger.exitOnFatal = true)
          ∨ (∃ e pv, (panicCheck.ServeHTTP.func1 p rw r v w).2 = Result.panic pv
            ∧ (panicCheck.ServeHTTP.func1 p rw r v w).1.requests = w.requests
            ∧ writeResult w rw = some e ∧ e.ErrorPanic = some pv)) := by
  cases hw : writeResult w rw with
  | none =>
    rw [func1_unexpected_ok p rw r w v hnil hs hE hw]
    simp [ownEvents, hw]
  | some e =>
    cases hP : e.ErrorPanic with
    | some pv =>
      rw [func1_unexpected_write_error_panics p rw r w v e pv hnil hs hE hw hP]
      simp [ownEvents, hw, hP]
    | none =>
      rw [func1_unexpected_fatal p rw r w v e hnil hs hE hw hP]
      by_cases hx : p.logger.exitOnFatal = true <;> simp [ownEvents, hw, hP, hx]

/-- The deferred function never touches a health status. -/
theorem func1_health (p : panicCheck) (rw r : Nat) (v : Value) (w : World) :
    (panicCheck.ServeHTTP.func1 p rw r v w).1.health = w.health := by
  by_cases hnil : v = Value.nil
  · subst hnil; rw [func1_nil]
  by_cases hs : v = http.ErrAbortHandler
  · subst hs; rw [func1_abort]
  cases hE : v.ErrorPanic with
  | some pv => rw [func1_error_panics p rw r w v pv hE]
  | none =>
    cases hw : writeResult w rw with
    | none => rw [func1_unexpected_ok p rw r w v hnil hs hE hw]
    | some e =>
      cases hP : e.ErrorPanic with
      | some pv => rw [func1_unexpected_write_error_panics p rw r w v e pv hnil hs hE hw hP]
      | none =>
        rw [func1_unexpected_fatal p rw r w v e hnil hs hE hw hP]
        split <;> rfl

/-! ## `ServeHTTP`, case by case -/

/-- When the continuation returns or panics, `ServeHTTP` ends the way its
deferred function ends on what `recover()` returns. -/
theorem ServeHTTP_of_next (p : panicCheck) (rw r : Nat) (next : HandlerFunc) (w w1 : World)
    (res : Result Unit) (h : next rw r w = (w1, res)) (hres : res ≠ Result.exit) :
    p.ServeHTTP rw r next w = panicCheck.ServeHTTP.func1 p rw r (gorecover res) w1 := by
  cases res with
  | ok a => simp [panicCheck.ServeHTTP, withDefer, h]
  | panic v => simp [panicCheck.ServeHTTP, withDefer, h]
  | exit => exact absurd rfl hres

/-- After a panic with a value whose `Error()` panics, `ServeHTTP` panics with
what `Error()` panicked with, having done nothing. -/
theorem ServeHTTP_error_panics (p : panicCheck) (rw r : Nat) (next : HandlerFunc)
    (w w1 : World) (v pv : Value) (hP : v.ErrorPanic = some pv)
    (h : next rw r w = (w1, Result.panic v)) :
    p.ServeHTTP rw r next w = (w1, Result.panic pv) := by
  rw [ServeHTTP_of_next p rw r next w w1 _ h (by simp)]
  simp only [gorecover]
  exact func1_error_panics p rw r w1 v pv hP

/-- After a panic with nil the handler does nothing. -/
theorem ServeHTTP_nil (p : panicCheck) (rw r : Nat) (next : HandlerFunc)
    (w w1 : World) (h : next rw r w = (w1, Result.panic Value.nil)) :
    p.ServeHTTP rw r next w = (w1, Result.ok ()) := by
  rw [ServeHTTP_of_next p rw r next w w1 _ h (by simp)]
  simp [gorecover, func1_nil]

/-- The actions of the handler itself after a panic with a value that is
neither nil nor the sentinel and whose `Error()` returns. -/
theorem ServeHTTP_unexpected_since (p : panicCheck) (rw r : Nat) (next : HandlerFunc)
    (w w1 : World) (v : Value) (hnil : v ≠ Value.nil) (hs : v ≠ http.ErrAbortHandler)
    (hE : v.ErrorPanic = none) (h : next rw r w = (w1, Result.panic v)) :
    (p.ServeHTTP rw r next w).1.events = w1.events ++ ownEvents p rw r w1 v
      ∧ (p.ServeHTTP rw r next w).1.eventsSince w1.events.length = ownEvents p rw r w1 v := by
  rw [ServeHTTP_of_next p rw r next w w1 _ h (by simp)]
  simp only [gorecover]
  have h1 := (func1_unexpected p rw r w1 v hnil hs hE).1
  refine ⟨h1, ?_⟩
  simp [World.eventsSince, h1]

/-- The heap, the host and the end of `ServeHTTP` after such a panic. -/
theorem ServeHTTP_unexpected_result (p : panicCheck) (rw r : Nat) (next : HandlerFunc)
    (w w1 : World) (v : Value) (hnil : v ≠ Value.nil) (hs : v ≠ http.ErrAbortHandler)
    (hE : v.ErrorPanic = none) (h : next rw r w = (w1, Result.panic v)) :
    (p.ServeHTTP rw r next w).1.heap = coercedHeap w1.heap v
      ∧ ((p.ServeHTTP rw r next w).1.requests r).Host = (w1.requests r).Host
      ∧ (((p.ServeHTTP rw r next w).2 = Result.ok ()
            ∧ ((p.ServeHTTP rw r next w).1.requests r).Close = true
            ∧ (∀ e, writeResult w1 rw = some e →
                e.ErrorPanic = none ∧ p.logger.exitOnFatal = false))
          ∨ ((p.ServeHTTP rw r next w).2 = Result.exit
            ∧ (p.ServeHTTP rw r next w).1.requests = w1.requests
            ∧ ∃ e, writeResult w1 rw = some e ∧ e.ErrorPanic = none
                ∧ p.logger.exitOnFatal = true)
          ∨ (∃ e pv, (p.ServeHTTP rw r next w).2 = Result.panic pv
            ∧ (p.ServeHTTP rw r next w).1.requests = w1.requests
            ∧ writeResult w1 rw = some e ∧ e.ErrorPanic = some pv)) := by
  rw [ServeHTTP_of_next p rw r next w w1 _ h (by simp)]
  simp only [gorecover]
  exact (func1_unexpected p rw r w1 v hnil hs hE).2

/-! ## The claims -/

/-- C1 (amended): for every recovered value `v` that is neither nil nor the
sentinel `http.ErrAbortHandler` and whose `Error()` method, if it has one,
returns, and every continuation that panics with `v`, `ServeHTTP` calls on the
response sink `WriteHeader(500)` and then `Write` with exactly the bytes of
"500 Internal Server Error: An unknown error caused a panic.\n", each once and
in that order, after whatever the continuation did; on a recorder the
continuation left untouched the final status is 500 and the body is that text.
The two calls mention neither `v` nor the request. -/
theorem C1_unexpected_panic_writes_fixed_500 (p : panicCheck) (rw r : Nat)
    (next : HandlerFunc) (w w1 : World) (v : Value)
    (hnil : v ≠ Value.nil) (hs : v ≠ http.ErrAbortHandler) (hE : v.ErrorPanic = none)
    (h : next rw r w = (w1, Result.panic v)) :
    (p.ServeHTTP rw r next w).1.calls rw
        = w1.calls rw ++ [RWCall.WriteHeader 500,
            RWCall.Write (bytes panicBody) (writeResult w1 rw)]
      ∧ (w1.calls rw = [] →
          (ResponseRecorder.after ((p.ServeHTTP rw r next w).1.calls rw)).Code = 500
            ∧ (ResponseRecorder.after ((p.ServeHTTP rw r next w).1.calls rw)).Body
                = bytes panicBody)
      ∧ panicBody = "500 Internal Server Error: An unknown error caused a panic.\n" := by
  have hc : (p.ServeHTTP rw r next w).1.calls rw
        = w1.calls rw ++ [RWCall.WriteHeader 500,
            RWCall.Write (bytes panicBody) (writeResult w1 rw)] := by
    simp only [World.calls, (ServeHTTP_unexpected_since p rw r next w w1 v hnil hs hE h).1,
      ownEvents]
    cases writeResult w1 rw with
    | none => simp [List.filterMap_append]
    | some e =>
      cases hP : e.ErrorPanic with
      | some pv => simp [List.filterMap_append, hP]
      | none =>
        by_cases hx : p.logger.exitOnFatal = true <;> simp [List.filterMap_append, hx, hP]
  refine ⟨hc, ?_, rfl⟩
  intro h0
  rw [hc, h0]
  simp [ResponseRecorder.after, ResponseRecorder.WriteHeader, ResponseRecorder.Write,
    NewRecorder]

/-- Witness of C1: the test `expectedPanic` on a fresh recorder gives status 500
and the fixed body. -/
theorem C1_witness :
    (ResponseRecorder.after
        (((NewPanicCheck 0 ⟨true⟩).ServeHTTP 0 0 expectedPanic testWorld).1.calls 0)).Code = 500
      ∧ (ResponseRecorder.after
        (((NewPanicCheck 0 ⟨true⟩).ServeHTTP 0 0 expectedPanic testWorld).1.calls 0)).Body
          = bytes panicBody :=
  (C1_unexpected_panic_writes_fixed_500 (NewPanicCheck 0 ⟨true⟩) 0 0 expectedPanic testWorld
    (expectedPanic 0 0 testWorld).1 (Value.errorString 1) (by decide) (by decide) rfl
    rfl).2.1 rfl

/-- Counterexample to C1 as stated, at two values that are not the sentinel.
The continuation `panic(nil)`: `ServeHTTP` makes no call on the sink, a fresh
recorder stays at status 200 with an empty body. The continuation that panics
with the nil pointer `ptrErr`, an error whose `Error()` panics: `ServeHTTP`
panics anew with the nil dereference and makes no call on the sink either. -/
theorem C1_counterexample :
    (Value.nil ≠ http.ErrAbortHandler
      ∧ panicNil 0 0 testWorld = (testWorld, Result.panic Value.nil)
      ∧ ((NewPanicCheck 0 ⟨true⟩).ServeHTTP 0 0 panicNil testWorld).1.calls 0 = []
      ∧ (ResponseRecorder.after
          (((NewPanicCheck 0 ⟨true⟩).ServeHTTP 0 0 panicNil testWorld).1.calls 0)).Code = 200
      ∧ (ResponseRecorder.after
          (((NewPanicCheck 0 ⟨true⟩).ServeHTTP 0 0 panicNil testWorld).1.calls 0)).Body = [])
    ∧ (ptrErr ≠ http.ErrAbortHandler ∧ ptrErr ≠ Value.nil
      ∧ panicWith ptrErr 0 0 testWorld = (testWorld, Result.panic ptrErr)
      ∧ ((NewPanicCheck 0 ⟨true⟩).ServeHTTP 0 0 (panicWith ptrErr) testWorld).2
          = Result.panic nilDereference
      ∧ ((NewPanicCheck 0 ⟨true⟩).ServeHTTP 0 0 (panicWith ptrErr) testWorld).1.calls 0 = []
      ∧ (ResponseRecorder.after
          (((NewPanicCheck 0 ⟨true⟩).ServeHTTP 0 0 (panicWith ptrErr)
            testWorld).1.calls 0)).Code = 200) :=
  ⟨⟨by decide, rfl, rfl, rfl, rfl⟩, ⟨by decide, by decide, rfl, rfl, rfl, rfl⟩⟩

/-- C2: for every continuation that panics with the sentinel
`http.ErrAbortHandler`, `ServeHTTP` does not return: it panics with that same
sentinel; it performs no action of its own, so it emits no log record, makes
no call on any response sink and leaves the `Close` flag of the request (and
the whole world) as the continuation left it. -/
theorem C2_abort_sentinel_is_raised_again (p : panicCheck) (rw r : Nat) (next : HandlerFunc)
    (w w1 : World) (h : next rw r w = (w1, Result.panic http.ErrAbortHandler)) :
    (p.ServeHTTP rw r next w).2 = Result.panic http.ErrAbortHandler
      ∧ (p.ServeHTTP rw r next w).1.eventsSince w1.events.length = []
      ∧ (p.ServeHTTP rw r next w).1.log = w1.log
      ∧ (∀ sink, (p.ServeHTTP rw r next w).1.calls sink = w1.calls sink)
      ∧ ((p.ServeHTTP rw r next w).1.requests r).Close = (w1.requests r).Close
      ∧ (p.ServeHTTP rw r next w).1 = w1 := by
  rw [ServeHTTP_of_next p rw r next w w1 _ h (by simp)]
  simp [gorecover, func1_abort, World.eventsSince]

/-- Witness of C2: the test `errAbort`. -/
theorem C2_witness :
    errAbort 0 0 testWorld = (testWorld, Result.panic http.ErrAbortHandler)
      ∧ ((NewPanicCheck 0 ⟨true⟩).ServeHTTP 0 0 errAbort testWorld).2
          = Result.panic http.ErrAbortHandler
      ∧ ((NewPanicCheck 0 ⟨true⟩).ServeHTTP 0 0 errAbort testWorld).1.log = [] :=
  ⟨rfl, (C2_abort_sentinel_is_raised_again (NewPanicCheck 0 ⟨true⟩) 0 0 errAbort testWorld
      testWorld rfl).1,
    (C2_abort_sentinel_is_raised_again (NewPanicCheck 0 ⟨true⟩) 0 0 errAbort testWorld
      testWorld rfl).2.2.1⟩

/-- C3 (amended): for every recovered value `v` that is neither nil nor the
sentinel and whose `Error()` method, if it has one, returns, `ServeHTTP` emits
exactly one record of error severity with message "panic-check": its field
"host" is the `Host` of the request and its nested "error" object carries the
coerced error `err` and a stack trace. `err` is `v` itself when `v` is an error
(same `Error()` text); otherwise it is a new error object whose `Error()` text
is the `%v` rendering of `v`. Any later record of the handler is neither of
error severity nor a "panic-check" record. -/
theorem C3_unexpected_panic_is_logged_once (p : panicCheck) (rw r : Nat)
    (next : HandlerFunc) (w w1 : World) (v : Value)
    (hnil : v ≠ Value.nil) (hs : v ≠ http.ErrAbortHandler) (hE : v.ErrorPanic = none)
    (h : next rw r w = (w1, Result.panic v)) :
    ∃ err rest,
      (p.ServeHTTP rw r next w).1.log
          = w1.log ++
            { level := Level.ErrorLevel,
              msg := "panic-check",
              fields := [ZapField.string "host" (w1.requests r).Host,
                ZapField.nest "error" [ZapField.error err, ZapField.stack w1.stack]] } :: rest
        ∧ (∀ e ∈ rest, e.msg ≠ "panic-check" ∧ e.level ≠ Level.ErrorLevel)
        ∧ ((p.ServeHTTP rw r next w).1.requests r).Host = (w1.requests r).Host
        ∧ err.ErrorPanic = none
        ∧ (v.implementsError = true →
            err = v ∧ err.Error (p.ServeHTTP rw r next w).1.heap = v.Error w1.heap)
        ∧ (v.implementsError = false →
            err = Value.errorString w1.heap.length
              ∧ err.implementsError = true
              ∧ err.Error (p.ServeHTTP rw r next w).1.heap = fmt.Sprintv w1.heap v) := by
  obtain ⟨hheap, hhost, -⟩ := ServeHTTP_unexpected_result p rw r next w w1 v hnil hs hE h
  refine ⟨coercedError w1.heap v,
    (match writeResult w1 rw with
      | none => []
      | some e =>
        match e.ErrorPanic with
        | some _ => []
        | none => [failedResponseEntry e]), ?_, ?_, hhost,
    coercedError_ErrorPanic w1.heap v hE, ?_, ?_⟩
  · simp only [World.log, (ServeHTTP_unexpected_since p rw r next w w1 v hnil hs hE h).1,
      ownEvents]
    cases writeResult w1 rw with
    | none => simp [List.filterMap_append, panicCheckEntry]
    | some e =>
      cases hP : e.ErrorPanic with
      | some pv => simp [List.filterMap_append, panicCheckEntry, hP]
      | none =>
        by_cases hx : p.logger.exitOnFatal = true <;>
          simp [List.filterMap_append, panicCheckEntry, hx, hP]
  · intro e he
    cases hw : writeResult w1 rw with
    | none => simp [hw] at he
    | some e2 =>
      cases hP : e2.ErrorPanic with
      | some pv => simp [hw, hP] at he
      | none =>
        simp [hw, hP] at he
        subst he
        simp [failedResponseEntry]
  · intro hi
    simp [coercedError, hi, hheap, coercedHeap]
  · intro hi
    rw [hheap]
    simp only [coercedError, coercedHeap, hi]
    simp [Value.implementsError, Value.Error]

/-- Witness of C3: a continuation that runs `panic(42)`; the one record carries
a new error whose text is "42". -/
theorem C3_witness :
    ∃ err, ((NewPanicCheck 0 ⟨true⟩).ServeHTTP 0 0 (panicWith (Value.int 42)) testWorld).1.log
        = [{ level := Level.ErrorLevel,
             msg := "panic-check",
             fields := [ZapField.string "host" "somehost.com",
               ZapField.nest "error" [ZapField.error err,
                 ZapField.stack "goroutine 1 [running]:"]] }]
      ∧ err.Error
          ((NewPanicCheck 0 ⟨true⟩).ServeHTTP 0 0 (panicWith (Value.int 42)) testWorld).1.heap
          = "42" := by
  obtain ⟨err, rest, -, -, -, -, -, hnew⟩ :=
    C3_unexpected_panic_is_logged_once (NewPanicCheck 0 ⟨true⟩) 0 0 (panicWith (Value.int 42))
      testWorld testWorld (Value.int 42) (by decide) (by decide) rfl rfl
  obtain ⟨herr, -, hmsg⟩ := hnew rfl
  refine ⟨Value.errorString 1, rfl, ?_⟩
  rw [herr] at hmsg
  rw [show (Value.errorString 1) = Value.errorString testWorld.heap.length from rfl, hmsg]
  rfl

/-- Counterexample to C3 as stated, at two values that are not the sentinel.
The continuation `panic(nil)`: `ServeHTTP` emits no record at all. The
continuation that panics with the nil pointer `ptrErr`, an error whose
`Error()` panics: `ServeHTTP` panics anew at line 41 and emits no record. -/
theorem C3_counterexample :
    (Value.nil ≠ http.ErrAbortHandler
      ∧ panicNil 0 0 testWorld = (testWorld, Result.panic Value.nil)
      ∧ ((NewPanicCheck 0 ⟨true⟩).ServeHTTP 0 0 panicNil testWorld).1.log = [])
    ∧ (ptrErr ≠ http.ErrAbortHandler ∧ ptrErr ≠ Value.nil
      ∧ panicWith ptrErr 0 0 testWorld = (testWorld, Result.panic ptrErr)
      ∧ ((NewPanicCheck 0 ⟨true⟩).ServeHTTP 0 0 (panicWith ptrErr) testWorld).2
          = Result.panic nilDereference
      ∧ ((NewPanicCheck 0 ⟨true⟩).ServeHTTP 0 0 (panicWith ptrErr) testWorld).1.log = []) :=
  ⟨⟨by decide, rfl, rfl⟩, ⟨by decide, by decide, rfl, rfl, rfl⟩⟩

/-- C4: for every recovered value `v` that is not the sentinel and every
continuation that panics with `v`, when the write of the 500 body succeeds
(the handler made the `Write` and it returned no error) `ServeHTTP` returns
normally and the `Close` flag of the request is true on return, whatever it
was before. That write is made and succeeds whenever `v` is not nil, its
`Error()` method, if it has one, returns, and the sink accepts the body. After
a panic with nil no write is made: `ServeHTTP` returns having done nothing. -/
theorem C4_unexpected_panic_is_swallowed_and_closes (p : panicCheck) (rw r : Nat)
    (next : HandlerFunc) (w w1 : World) (v : Value)
    (hs : v ≠ http.ErrAbortHandler)
    (h : next rw r w = (w1, Result.panic v)) :
    (Event.rw rw (RWCall.Write (bytes panicBody) none)
          ∈ (p.ServeHTTP rw r next w).1.eventsSince w1.events.length →
        (p.ServeHTTP rw r next w).2 = Result.ok ()
          ∧ ((p.ServeHTTP rw r next w).1.requests r).Close = true)
      ∧ (v ≠ Value.nil → v.ErrorPanic = none → writeResult w1 rw = none →
          Event.rw rw (RWCall.Write (bytes panicBody) none)
            ∈ (p.ServeHTTP rw r next w).1.eventsSince w1.events.length)
      ∧ (v = Value.nil →
          (p.ServeHTTP rw r next w).2 = Result.ok ()
            ∧ (p.ServeHTTP rw r next w).1.eventsSince w1.events.length = []) := by
  refine ⟨?_, ?_, ?_⟩
  · intro hwrite
    by_cases hnil : v = Value.nil
    · subst hnil
      rw [ServeHTTP_nil p rw r next w w1 h] at hwrite
      simp [World.eventsSince] at hwrite
    cases hE : v.ErrorPanic with
    | some pv =>
      rw [ServeHTTP_error_panics p rw r next w w1 v pv hE h] at hwrite
      simp [World.eventsSince] at hwrite
    | none =>
      rw [(ServeHTTP_unexpected_since p rw r next w w1 v hnil hs hE h).2] at hwrite
      obtain ⟨-, -, hres⟩ := ServeHTTP_unexpected_result p rw r next w w1 v hnil hs hE h
      rcases hres with h1 | h2 | h3
      · exact ⟨h1.1, h1.2.1⟩
      · exfalso
        obtain ⟨-, -, e, hw, hP, hx⟩ := h2
        simp [ownEvents, hw, hP, hx, failedResponseEntry] at hwrite
      · exfalso
        obtain ⟨e, pv, -, -, hw, hP⟩ := h3
        simp [ownEvents, hw, hP] at hwrite
  · intro hnil hE hw
    rw [(ServeHTTP_unexpected_since p rw r next w w1 v hnil hs hE h).2]
    simp [ownEvents, hw]
  · intro hnil
    subst hnil
    rw [ServeHTTP_nil p rw r next w w1 h]
    simp [World.eventsSince]

/-- Witness of C4: the test `expectedPanic` on a request whose `Close` flag is
false; the handler returns and the flag is true. -/
theorem C4_witness :
    (testWorld.requests 0).Close = false
      ∧ ((NewPanicCheck 0 ⟨true⟩).ServeHTTP 0 0 expectedPanic testWorld).2 = Result.ok ()
      ∧ (((NewPanicCheck 0 ⟨true⟩).ServeHTTP 0 0 expectedPanic testWorld).1.requests 0).Close
          = true :=
  ⟨rfl, (C4_unexpected_panic_is_swallowed_and_closes (NewPanicCheck 0 ⟨true⟩) 0 0
    expectedPanic testWorld (expectedPanic 0 0 testWorld).1 (Value.errorString 1)
    (by decide) rfl).1 (List.Mem.tail _ (List.Mem.tail _ (List.Mem.head _)))⟩

/-- C5: in every outcome of `ServeHTTP` (the continuation returns, panics with
any value, sentinel or not, or ends the process) every health status, and so
the one the handler holds, has after the invocation the value the continuation
left: the handler never writes to it. When the continuation leaves it alone,
its value after the invocation is its value before. -/
theorem C5_health_is_never_written (p : panicCheck) (rw r : Nat) (next : HandlerFunc)
    (w : World) :
    (p.ServeHTTP rw r next w).1.health = (next rw r w).1.health
      ∧ ((next rw r w).1.health p.health = w.health p.health →
          (p.ServeHTTP rw r next w).1.health p.health = w.health p.health) := by
  have key : (p.ServeHTTP rw r next w).1.health = (next rw r w).1.health := by
    rcases hn : next rw r w with ⟨w1, res⟩
    by_cases hres : res = Result.exit
    · subst hres
      simp [panicCheck.ServeHTTP, withDefer, hn]
    · rw [ServeHTTP_of_next p rw r next w w1 res hn hres, func1_health]
  exact ⟨key, fun h2 => by rw [key, h2]⟩

/-- Witness of C5: the three tests leave the status `Healthy`. -/
theorem C5_witness :
    ((NewPanicCheck 0 ⟨true⟩).ServeHTTP 0 0 noop testWorld).1.health 0 = Status.Healthy
      ∧ ((NewPanicCheck 0 ⟨true⟩).ServeHTTP 0 0 errAbort testWorld).1.health 0 = Status.Healthy
      ∧ ((NewPanicCheck 0 ⟨true⟩).ServeHTTP 0 0 expectedPanic testWorld).1.health 0
          = Status.Healthy :=
  ⟨(C5_health_is_never_written (NewPanicCheck 0 ⟨true⟩) 0 0 noop testWorld).2 rfl,
    (C5_health_is_never_written (NewPanicCheck 0 ⟨true⟩) 0 0 errAbort testWorld).2 rfl,
    (C5_health_is_never_written (NewPanicCheck 0 ⟨true⟩) 0 0 expectedPanic testWorld).2 rfl⟩

/-- C6: for every continuation that returns normally, `ServeHTTP` is one run of
the continuation on the same sink and request and nothing more: it returns
normally, and the sink (so the status and body of a recorder), the `Close` flag
of the request and the log are as the continuation left them. -/
theorem C6_normal_return_adds_nothing (p : panicCheck) (rw r : Nat) (next : HandlerFunc)
    (w w1 : World) (h : next rw r w = (w1, Result.ok ())) :
    p.ServeHTTP rw r next w = next rw r w
      ∧ (p.ServeHTTP rw r next w).2 = Result.ok ()
      ∧ (p.ServeHTTP rw r next w).1.eventsSince w1.events.length = []
      ∧ (p.ServeHTTP rw r next w).1.calls rw = w1.calls rw
      ∧ ResponseRecorder.after ((p.ServeHTTP rw r next w).1.calls rw)
          = ResponseRecorder.after (w1.calls rw)
      ∧ ((p.ServeHTTP rw r next w).1.requests r).Close = (w1.requests r).Close
      ∧ (p.ServeHTTP rw r next w).1.log = w1.log := by
  rw [ServeHTTP_of_next p rw r next w w1 _ h (by simp), h]
  simp [gorecover, func1_nil, World.eventsSince]

/-- Witness of C6: the test `noop` on a fresh recorder gives status 200 and an
empty log; a continuation that answers 204 is run once. -/
theorem C6_witness :
    (ResponseRecorder.after
        (((NewPanicCheck 0 ⟨true⟩).ServeHTTP 0 0 noop testWorld).1.calls 0)).Code = 200
      ∧ ((NewPanicCheck 0 ⟨true⟩).ServeHTTP 0 0 noop testWorld).1.log = []
      ∧ ((NewPanicCheck 0 ⟨true⟩).ServeHTTP 0 0 noContent testWorld).1.calls 0
          = [RWCall.WriteHeader 204] :=
  ⟨(congrArg ResponseRecorder.Code
      (C6_normal_return_adds_nothing (NewPanicCheck 0 ⟨true⟩) 0 0 noop testWorld testWorld
        rfl).2.2.2.2.1).trans rfl,
    (C6_normal_return_adds_nothing (NewPanicCheck 0 ⟨true⟩) 0 0 noop testWorld testWorld
      rfl).2.2.2.2.2.2,
    (C6_normal_return_adds_nothing (NewPanicCheck 0 ⟨true⟩) 0 0 noContent testWorld
      (noContent 0 0 testWorld).1 rfl).2.2.2.1⟩

/-- C7 (amended): the classification is by identity with the sentinel, not by
message. A non-nil recovered value whose `Error()` method, if it has one,
returns is treated as an expected disconnect (raised again, nothing else
done) if and only if it is `http.ErrAbortHandler` itself; every other such
value is treated as an unexpected error: a "panic-check" record,
`WriteHeader(500)` and the body on the sink, and it is not raised again (the
only panic that can leave `ServeHTTP` then is that of `Error()` of the error
of a failed `Write`, at line 46). Whatever their text, another error object, an error that wraps the
sentinel and a string are other values. -/
theorem C7_classification_is_by_identity (p : panicCheck) (rw r : Nat)
    (next : HandlerFunc) (w w1 : World) (v : Value)
    (hnil : v ≠ Value.nil) (hE : v.ErrorPanic = none)
    (h : next rw r w = (w1, Result.panic v)) :
    (((p.ServeHTTP rw r next w).2 = Result.panic http.ErrAbortHandler
          ∧ (p.ServeHTTP rw r next w).1.eventsSince w1.events.length = [])
        ↔ v = http.ErrAbortHandler)
      ∧ (v = http.ErrAbortHandler → (p.ServeHTTP rw r next w).1 = w1)
      ∧ (v ≠ http.ErrAbortHandler →
          (∃ fields, Event.log ⟨Level.ErrorLevel, "panic-check", fields⟩
                ∈ (p.ServeHTTP rw r next w).1.eventsSince w1.events.length)
            ∧ Event.rw rw (RWCall.WriteHeader 500)
                ∈ (p.ServeHTTP rw r next w).1.eventsSince w1.events.length
            ∧ (∃ e, Event.rw rw (RWCall.Write (bytes panicBody) e)
                ∈ (p.ServeHTTP rw r next w).1.eventsSince w1.events.length)
            ∧ (∀ x, (p.ServeHTTP rw r next w).2 = Result.panic x →
                ∃ e, Event.rw rw (RWCall.Write (bytes panicBody) (some e))
                    ∈ (p.ServeHTTP rw r next w).1.eventsSince w1.events.length
                  ∧ e.ErrorPanic = some x))
      ∧ (∀ a, a ≠ 0 → Value.errorString a ≠ http.ErrAbortHandler)
      ∧ (∀ a, Value.wrapError a ≠ http.ErrAbortHandler)
      ∧ (∀ s, Value.string s ≠ http.ErrAbortHandler) := by
  have hother : v ≠ http.ErrAbortHandler →
      (∃ fields, Event.log ⟨Level.ErrorLevel, "panic-check", fields⟩
            ∈ (p.ServeHTTP rw r next w).1.eventsSince w1.events.length)
        ∧ Event.rw rw (RWCall.WriteHeader 500)
            ∈ (p.ServeHTTP rw r next w).1.eventsSince w1.events.length
        ∧ (∃ e, Event.rw rw (RWCall.Write (bytes panicBody) e)
            ∈ (p.ServeHTTP rw r next w).1.eventsSince w1.events.length)
        ∧ (∀ x, (p.ServeHTTP rw r next w).2 = Result.panic x →
            ∃ e, Event.rw rw (RWCall.Write (bytes panicBody) (some e))
                ∈ (p.ServeHTTP rw r next w).1.eventsSince w1.events.length
              ∧ e.ErrorPanic = some x) := by
    intro hs
    rw [(ServeHTTP_unexpected_since p rw r next w w1 v hnil hs hE h).2]
    refine ⟨⟨(panicCheckEntry w1 r v).fields, by simp [ownEvents, panicCheckEntry]⟩,
      by simp [ownEvents], ⟨writeResult w1 rw, by simp [ownEvents]⟩, ?_⟩
    intro x hx
    obtain ⟨-, -, hres⟩ := ServeHTTP_unexpected_result p rw r next w w1 v hnil hs hE h
    rcases hres with h1 | h2 | h3
    · rw [h1.1] at hx; cases hx
    · rw [h2.1] at hx; cases hx
    · obtain ⟨e, pv, hpanic, -, hw, hP⟩ := h3
      rw [hpanic] at hx
      cases hx
      exact ⟨e, by simp [ownEvents, hw], hP⟩
  have habort : v = http.ErrAbortHandler →
      p.ServeHTTP rw r next w = (w1, Result.panic http.ErrAbortHandler) := by
    intro hv
    subst hv
    rw [ServeHTTP_of_next p rw r next w w1 _ h (by simp)]
    simp [gorecover, func1_abort]
  refine ⟨⟨?_, fun hv => by rw [habort hv]; simp [World.eventsSince]⟩,
    fun hv => by rw [habort hv], hother, ?_, ?_, ?_⟩
  · intro hp
    by_contra hs
    have hmem := (hother hs).2.1
    rw [hp.2] at hmem
    simp at hmem
  · intro a ha hEq
    simp [http.ErrAbortHandler] at hEq
    exact ha hEq
  · intro a hEq
    simp [http.ErrAbortHandler] at hEq
  · intro s hEq
    simp [http.ErrAbortHandler] at hEq

/-- Witness of C7: a second error object with the text of the sentinel is
answered with 500 and not raised again. -/
theorem C7_witness :
    (Value.errorString 1).Error lookalikeWorld.heap
        = http.ErrAbortHandler.Error lookalikeWorld.heap
      ∧ ((NewPanicCheck 0 ⟨true⟩).ServeHTTP 0 0 (panicWith (Value.errorString 1))
          lookalikeWorld).2 = Result.ok ()
      ∧ Event.rw 0 (RWCall.WriteHeader 500)
          ∈ ((NewPanicCheck 0 ⟨true⟩).ServeHTTP 0 0 (panicWith (Value.errorString 1))
              lookalikeWorld).1.eventsSince lookalikeWorld.events.length :=
  ⟨rfl, rfl,
    ((C7_classification_is_by_identity (NewPanicCheck 0 ⟨true⟩) 0 0
      (panicWith (Value.errorString 1)) lookalikeWorld lookalikeWorld (Value.errorString 1)
      (by decide) rfl rfl).2.2.1 (by decide)).2.1⟩

/-- Counterexample to C7 as stated, at two recovered values other than the
sentinel that are not treated as an unexpected error. Nil: `ServeHTTP` returns
having done nothing (no record, no 500). The nil pointer `ptrErr`, an error
whose `Error()` panics: `ServeHTTP` panics anew, with no record and no 500. -/
theorem C7_counterexample :
    (Value.nil ≠ http.ErrAbortHandler
      ∧ panicNil 0 0 testWorld = (testWorld, Result.panic Value.nil)
      ∧ ((NewPanicCheck 0 ⟨true⟩).ServeHTTP 0 0 panicNil testWorld).2 = Result.ok ()
      ∧ ((NewPanicCheck 0 ⟨true⟩).ServeHTTP 0 0 panicNil testWorld).1.eventsSince
          testWorld.events.length = [])
    ∧ (ptrErr ≠ http.ErrAbortHandler ∧ ptrErr ≠ Value.nil
      ∧ panicWith ptrErr 0 0 testWorld = (testWorld, Result.panic ptrErr)
      ∧ ((NewPanicCheck 0 ⟨true⟩).ServeHTTP 0 0 (panicWith ptrErr) testWorld).2
          = Result.panic nilDereference
      ∧ ((NewPanicCheck 0 ⟨true⟩).ServeHTTP 0 0 (panicWith ptrErr) testWorld).1.eventsSince
          testWorld.events.length = []) :=
  ⟨⟨by decide, rfl, rfl, rfl⟩, ⟨by decide, by decide, rfl, rfl, rfl⟩⟩

/-- C8 (amended): for every recovered value that is not the sentinel, and as
long as the error a failed `Write` returns has an `Error()` method that
returns, `ServeHTTP` emits a record of fatal severity with message
"failed-response-in-panic-check" if and only if its `Write` of the 500 body
returned an error. That record nests the write error and comes right after the
"panic-check" record, the `WriteHeader` and the `Write`, before any assignment
to the `Close` flag (none is made when the logger halts the process: the flag
is then as the continuation left it). When the `Write` succeeds the handler
emits no record of fatal severity. -/
theorem C8_fatal_record_iff_write_fails (p : panicCheck) (rw r : Nat)
    (next : HandlerFunc) (w w1 : World) (v : Value)
    (hs : v ≠ http.ErrAbortHandler) (h : next rw r w = (w1, Result.panic v))
    (hW : ∀ e, Event.rw rw (RWCall.Write (bytes panicBody) (some e))
        ∈ (p.ServeHTTP rw r next w).1.eventsSince w1.events.length → e.ErrorPanic = none) :
    ((∃ fields, Event.log ⟨Level.FatalLevel, "failed-response-in-panic-check", fields⟩
          ∈ (p.ServeHTTP rw r next w).1.eventsSince w1.events.length)
        ↔ ∃ e, Event.rw rw (RWCall.Write (bytes panicBody) (some e))
          ∈ (p.ServeHTTP rw r next w).1.eventsSince w1.events.length)
      ∧ (∀ e, Event.rw rw (RWCall.Write (bytes panicBody) (some e))
            ∈ (p.ServeHTTP rw r next w).1.eventsSince w1.events.length →
          ∃ fields post,
            (p.ServeHTTP rw r next w).1.eventsSince w1.events.length
                = [Event.log ⟨Level.ErrorLevel, "panic-check", fields⟩,
                    Event.rw rw (RWCall.WriteHeader 500),
                    Event.rw rw (RWCall.Write (bytes panicBody) (some e)),
                    Event.log ⟨Level.FatalLevel, "failed-response-in-panic-check",
                      [ZapField.nest "error" [ZapField.error e]]⟩] ++ post
              ∧ (post = [] ∨ post = [Event.setClose r true])
              ∧ (p.logger.exitOnFatal = true →
                  post = [] ∧ (p.ServeHTTP rw r next w).2 = Result.exit
                    ∧ ((p.ServeHTTP rw r next w).1.requests r).Close
                        = (w1.requests r).Close))
      ∧ (Event.rw rw (RWCall.Write (bytes panicBody) none)
            ∈ (p.ServeHTTP rw r next w).1.eventsSince w1.events.length →
          ∀ en, Event.log en ∈ (p.ServeHTTP rw r next w).1.eventsSince w1.events.length →
            en.level ≠ Level.FatalLevel) := by
  by_cases hnil : v = Value.nil
  · subst hnil
    rw [ServeHTTP_nil p rw r next w w1 h]
    simp [World.eventsSince]
  cases hE : v.ErrorPanic with
  | some pv =>
    rw [ServeHTTP_error_panics p rw r next w w1 v pv hE h]
    simp [World.eventsSince]
  | none =>
    have hsince := (ServeHTTP_unexpected_since p rw r next w w1 v hnil hs hE h).2
    obtain ⟨-, -, hres⟩ := ServeHTTP_unexpected_result p rw r next w w1 v hnil hs hE h
    rw [hsince] at hW ⊢
    cases hw : writeResult w1 rw with
    | none => simp [ownEvents, hw, panicCheckEntry]
    | some e =>
      have hP : e.ErrorPanic = none := hW e (by simp [ownEvents, hw])
      by_cases hx : p.logger.exitOnFatal = true
      · have hexit : (p.ServeHTTP rw r next w).2 = Result.exit
            ∧ (p.ServeHTTP rw r next w).1.requests = w1.requests := by
          rcases hres with h1 | h2 | h3
          · have := (h1.2.2 e hw).2
            rw [hx] at this
            cases this
          · exact ⟨h2.1, h2.2.1⟩
          · obtain ⟨e2, pv, -, -, hw2, hP2⟩ := h3
            rw [hw] at hw2
            cases hw2
            rw [hP] at hP2
            cases hP2
        refine ⟨?_, ?_, ?_⟩
        · simp [ownEvents, hw, hP, hx, failedResponseEntry, panicCheckEntry]
        · intro e2 he2
          simp [ownEvents, hw, hP, hx, failedResponseEntry, panicCheckEntry] at he2
          subst he2
          refine ⟨(panicCheckEntry w1 r v).fields, [], ?_, Or.inl rfl,
            fun _ => ⟨rfl, hexit.1, ?_⟩⟩
          · simp [ownEvents, hw, hP, hx, failedResponseEntry, panicCheckEntry]
          · rw [hexit.2]
        · intro hmem
          simp [ownEvents, hw, hP, hx, failedResponseEntry, panicCheckEntry] at hmem
      · refine ⟨?_, ?_, ?_⟩
        · simp [ownEvents, hw, hP, hx, failedResponseEntry, panicCheckEntry]
        · intro e2 he2
          simp [ownEvents, hw, hP, hx, failedResponseEntry, panicCheckEntry] at he2
          subst he2
          refine ⟨(panicCheckEntry w1 r v).fields, [Event.setClose r true], ?_, Or.inr rfl,
            fun hx2 => absurd hx2 hx⟩
          simp [ownEvents, hw, hP, hx, failedResponseEntry, panicCheckEntry]
        · intro hmem
          simp [ownEvents, hw, hP, hx, failedResponseEntry, panicCheckEntry] at hmem

/-- Witness of C8: on a sink whose `Write` fails, a panic with the string
"boom" gives the fatal record, and with a logger that halts the process the
`Close` flag stays false. -/
theorem C8_witness :
    (∃ fields, Event.log ⟨Level.FatalLevel, "failed-response-in-panic-check", fields⟩
        ∈ ((NewPanicCheck 0 ⟨true⟩).ServeHTTP 0 0 (panicWith (Value.string "boom"))
            brokenWorld).1.eventsSince brokenWorld.events.length)
      ∧ (((NewPanicCheck 0 ⟨true⟩).ServeHTTP 0 0 (panicWith (Value.string "boom"))
            brokenWorld).1.requests 0).Close = false :=
  ⟨(C8_fatal_record_iff_write_fails (NewPanicCheck 0 ⟨true⟩) 0 0
      (panicWith (Value.string "boom")) brokenWorld brokenWorld (Value.string "boom")
      (by decide) rfl
      (by
        intro e he
        have hnew : ((NewPanicCheck 0 ⟨true⟩).ServeHTTP 0 0 (panicWith (Value.string "boom"))
            brokenWorld).1.eventsSince brokenWorld.events.length
            = ownEvents (NewPanicCheck 0 ⟨true⟩) 0 0 brokenWorld (Value.string "boom") := rfl
        rw [hnew] at he
        have hw : writeResult brokenWorld 0 = some (Value.errorString 1) := rfl
        simp [ownEvents, hw, Value.ErrorPanic, failedResponseEntry] at he
        subst he
        rfl)).1.mpr
      ⟨Value.errorString 1, List.Mem.tail _ (List.Mem.tail _ (List.Mem.head _))⟩,
    rfl⟩

/-- Counterexample to C8 as stated: the continuation panics with the string
"boom" and the sink refuses the body with the nil pointer `ptrErr`, an error
whose `Error()` panics. The `Write` of the 500 body returned an error, yet the
handler emits no record of fatal severity: `zap.Error(writeErr)` panics at
line 46 before the call of `Fatal`, and `ServeHTTP` panics anew. -/
theorem C8_counterexample :
    Value.string "boom" ≠ http.ErrAbortHandler
      ∧ panicWith (Value.string "boom") 0 0 ptrErrSinkWorld
          = (ptrErrSinkWorld, Result.panic (Value.string "boom"))
      ∧ Event.rw 0 (RWCall.Write (bytes panicBody) (some ptrErr))
          ∈ ((NewPanicCheck 0 ⟨true⟩).ServeHTTP 0 0 (panicWith (Value.string "boom"))
              ptrErrSinkWorld).1.eventsSince ptrErrSinkWorld.events.length
      ∧ ((NewPanicCheck 0 ⟨true⟩).ServeHTTP 0 0 (panicWith (Value.string "boom"))
              ptrErrSinkWorld).1.log.length = 1
      ∧ (∀ en ∈ ((NewPanicCheck 0 ⟨true⟩).ServeHTTP 0 0 (panicWith (Value.string "boom"))
              ptrErrSinkWorld).1.log, en.level = Level.ErrorLevel)
      ∧ ((NewPanicCheck 0 ⟨true⟩).ServeHTTP 0 0 (panicWith (Value.string "boom"))
              ptrErrSinkWorld).2 = Result.panic nilDereference := by
  refine ⟨by decide, rfl, List.Mem.tail _ (List.Mem.tail _ (List.Mem.head _)), rfl, ?_, rfl⟩
  intro en hen
  have hlog : ((NewPanicCheck 0 ⟨true⟩).ServeHTTP 0 0 (panicWith (Value.string "boom"))
      ptrErrSinkWorld).1.log
      = [panicCheckEntry ptrErrSinkWorld 0 (Value.string "boom")] := rfl
  rw [hlog] at hen
  simp at hen
  subst hen
  rfl

/-- C9 (the code at the failing input): the health status given to
`NewPanicCheck` is `Healthy` before, the continuation panics with
`errors.New("we expect this panic")`, `ServeHTTP` handles the panic and
returns, and the health status is still `Healthy`. -/
theorem C9_health_still_healthy_after_unexpected_panic :
    testWorld.health (NewPanicCheck 0 ⟨true⟩).health = Status.Healthy
      ∧ (expectedPanic 0 0 testWorld).2 = Result.panic (Value.errorString 1)
      ∧ Value.errorString 1 ≠ http.ErrAbortHandler
      ∧ ((NewPanicCheck 0 ⟨true⟩).ServeHTTP 0 0 expectedPanic testWorld).2 = Result.ok ()
      ∧ ((NewPanicCheck 0 ⟨true⟩).ServeHTTP 0 0 expectedPanic testWorld).1.health
          (NewPanicCheck 0 ⟨true⟩).health = Status.Healthy :=
  ⟨rfl, rfl, by decide, rfl, rfl⟩

end handlers
